import Mathlib

/-!
Shallow embedding of the difficulty/performance calculation core of the
`mamestagram-pp-rs` repository (files `src/osu/mod.rs` and `src/fruits/pp.rs`),
together with theorems settling the frozen specification claims.

Floating-point (`f64`) arithmetic is modelled over the real numbers `ℝ`;
machine `usize` counters are modelled as `ℕ` with truncated (saturating)
subtraction, matching the source's `saturating_sub`.  Code paths that panic in
Rust (failed `unwrap`, index out of bounds, `usize` underflow) are modelled by
`Except.error ()`.
-/

noncomputable section

open Classical

/-- Source: the 2-dimensional playfield position type (`Pos2` of the crate). -/
structure Pos where
  x : ℝ
  y : ℝ

instance : Inhabited Pos := ⟨⟨0, 0⟩⟩

/-- Source: `Pos2::distance`, the Euclidean distance between two positions. -/
def Pos.distance (p q : Pos) : ℝ :=
  Real.sqrt ((p.x - q.x) ^ 2 + (p.y - q.y) ^ 2)

theorem Pos.distance_comm (p q : Pos) : p.distance q = q.distance p := by
  unfold Pos.distance
  exact congrArg Real.sqrt (by ring)

/-- Kind tag of a processed hit object (circle / slider / spinner). -/
inductive ObjKind
  | circle
  | slider
  | spinner
deriving DecidableEq

/-- Modelled from the spec: the processed hit object (`OsuObject`,
`src/osu/osu_object.rs` is not under `src/`).  Per §3 of the spec a processed
object carries a kind tag, start time, end time, start position, end position
and a mutable stack height defaulting to 0.  `end_time()` / `end_pos()`
accessors of the source are the `endTime` / `endPos` fields. -/
structure OsuObject where
  time : ℝ
  pos : Pos
  endTime : ℝ
  endPos : Pos
  kind : ObjKind
  stackHeight : ℝ

instance : Inhabited OsuObject := ⟨⟨0, default, 0, default, ObjKind.circle, 0⟩⟩

def OsuObject.is_circle (o : OsuObject) : Prop := o.kind = ObjKind.circle

def OsuObject.is_slider (o : OsuObject) : Prop := o.kind = ObjKind.slider

def OsuObject.is_spinner (o : OsuObject) : Prop := o.kind = ObjKind.spinner

/-- Reading `hit_objects[i]`; indices are in bounds in every run of the source,
out-of-bounds reads return the default object. -/
def getObj (a : Array OsuObject) (i : ℕ) : OsuObject :=
  a.getD i default

/-- Writing `hit_objects[i].stack_height = v`. -/
def setStack (a : Array OsuObject) (i : ℕ) (v : ℝ) : Array OsuObject :=
  if h : i < a.size then a.set ⟨i, h⟩ { a[i] with stackHeight := v } else a

/-- Writing `hit_objects[i].stack_height += v`. -/
def addStack (a : Array OsuObject) (i : ℕ) (v : ℝ) : Array OsuObject :=
  if h : i < a.size then a.set ⟨i, h⟩ { a[i] with stackHeight := a[i].stackHeight + v }
  else a

/-- Source constant `STACK_DISTANCE` (`src/osu/mod.rs` line 30). -/
def STACK_DISTANCE : ℝ := 3

/-- Source constant `SECTION_LEN` (`src/osu/mod.rs` line 27). -/
def SECTION_LEN : ℝ := 400

/-- Source constant `DIFFICULTY_MULTIPLIER` (`src/osu/mod.rs` line 28). -/
def DIFFICULTY_MULTIPLIER : ℝ := 0.0675

/-- Source (`stacking`, lines 339-343): reset of stack heights for objects
before the previously visited window (`extended_start_idx` bookkeeping);
returns the updated array and the updated `extended_start_idx`. -/
def resetStale (es n : ℕ) (a : Array OsuObject) : Array OsuObject × ℕ :=
  if n < es then (setStack a n 0, n) else (a, es)

/-- Source (`stacking`, lines 359-365): the `for j in n + 1..=i` loop that
offsets every already-stacked object under the slider end. -/
def sliderOffsetLoop (endPosN : Pos) (offset : ℝ) (a : Array OsuObject)
    (js : List ℕ) : Array OsuObject :=
  js.foldl
    (fun acc j =>
      if endPosN.distance (getObj acc j).pos < STACK_DISTANCE then addStack acc j (-offset)
      else acc)
    a

/-- Source (`stacking`, lines 326-382): the backward walk of the circle case.
The first argument is the current value of `n` (the next candidate index is
`n - 1`; `checked_sub` failing is the `0` case); `oi` is `obj_i_idx`, `es` is
`extended_start_idx`.  Returns the array and the final `extended_start_idx`. -/
def circleWalk (thr : ℝ) (i : ℕ) : ℕ → ℕ → ℕ → Array OsuObject → Array OsuObject × ℕ
  | 0, _, es, a => (a, es)
  | n + 1, oi, es, a =>
    if (getObj a n).is_spinner then circleWalk thr i n oi es a
    else if (getObj a oi).time - (getObj a n).endTime > thr then (a, es)
    else
      if (getObj (resetStale es n a).1 n).is_slider ∧
          (getObj (resetStale es n a).1 n).endPos.distance
            (getObj (resetStale es n a).1 oi).pos < STACK_DISTANCE then
        (sliderOffsetLoop (getObj (resetStale es n a).1 n).endPos
          ((getObj (resetStale es n a).1 oi).stackHeight -
            (getObj (resetStale es n a).1 n).stackHeight + 1)
          (resetStale es n a).1 (List.range' (n + 1) (i - n)), (resetStale es n a).2)
      else if (getObj (resetStale es n a).1 n).pos.distance
          (getObj (resetStale es n a).1 oi).pos < STACK_DISTANCE then
        circleWalk thr i n n (resetStale es n a).2
          (setStack (resetStale es n a).1 n ((getObj (resetStale es n a).1 oi).stackHeight + 1))
      else circleWalk thr i n oi (resetStale es n a).2 (resetStale es n a).1

/-- Source (`stacking`, lines 383-407): the backward walk of the slider case. -/
def sliderWalk (thr : ℝ) : ℕ → ℕ → Array OsuObject → Array OsuObject
  | 0, _, a => a
  | n + 1, oi, a =>
    if (getObj a n).is_spinner then sliderWalk thr n oi a
    else if (getObj a oi).time - (getObj a n).time > thr then a
    else if (getObj a n).endPos.distance (getObj a oi).pos < STACK_DISTANCE then
      sliderWalk thr n n (setStack a n ((getObj a oi).stackHeight + 1))
    else sliderWalk thr n oi a

/-- Source (`stacking`, lines 306-408): the outer `for i in
(1..=extended_end_idx).rev()` loop; the first argument is the current `i`
(`0` is never processed), `es` is the persistent `extended_start_idx`. -/
def stackingLoop (thr : ℝ) : ℕ → ℕ → Array OsuObject → Array OsuObject
  | 0, _, a => a
  | i + 1, es, a =>
    if |(getObj a (i + 1)).stackHeight| > 0 ∨ (getObj a (i + 1)).is_spinner then
      stackingLoop thr i es a
    else if (getObj a (i + 1)).is_circle then
      stackingLoop thr i (circleWalk thr (i + 1) (i + 1) (i + 1) es a).2
        (circleWalk thr (i + 1) (i + 1) (i + 1) es a).1
    else if (getObj a (i + 1)).is_slider then
      stackingLoop thr i es (sliderWalk thr (i + 1) (i + 1) a)
    else stackingLoop thr i es a

/-- Source: `stacking` (`src/osu/mod.rs` lines 300-409), the modern stack
resolver.  On an empty slice the source computes `hit_objects.len() - 1`,
which underflows `usize` and leads to a panic (out-of-bounds index in release
builds, overflow panic in debug builds); this is the `Except.error` case. -/
def stacking (thr : ℝ) (a : Array OsuObject) : Except Unit (Array OsuObject) :=
  if a.size = 0 then Except.error ()
  else Except.ok (stackingLoop thr (a.size - 1) 0 a)

/-- Source (`old_stacking`, lines 422-435): the inner `for j in
i + 1..hit_objects.len()` loop; `endPosI` is the `end_pos` captured before the
loop, the `ℝ` arguments are `start_time` and `slider_stack`. -/
def oldStackingInner (i : ℕ) (endPosI : Pos) (thr : ℝ) :
    List ℕ → ℝ → ℝ → Array OsuObject → Array OsuObject
  | [], _, _, a => a
  | j :: js, startTime, sliderStack, a =>
    if (getObj a j).time - thr > startTime then a
    else if (getObj a j).pos.distance (getObj a i).pos < STACK_DISTANCE then
      oldStackingInner i endPosI thr js (getObj a j).endTime sliderStack (addStack a i 1)
    else if (getObj a j).pos.distance endPosI < STACK_DISTANCE then
      oldStackingInner i endPosI thr js (getObj a j).endTime (sliderStack + 1)
        (addStack a j (-(sliderStack + 1)))
    else oldStackingInner i endPosI thr js startTime sliderStack a

/-- Source (`old_stacking`, lines 412-436): the outer loop over the index
list. -/
def oldStackingLoop (thr : ℝ) (len : ℕ) : List ℕ → Array OsuObject → Array OsuObject
  | [], a => a
  | i :: is, a =>
    if (getObj a i).stackHeight ≠ 0 ∧ ¬(getObj a i).is_slider then
      oldStackingLoop thr len is a
    else
      oldStackingLoop thr len is
        (oldStackingInner i (getObj a i).endPos thr
          (List.range' (i + 1) (len - (i + 1))) (getObj a i).endTime 0 a)

/-- Source: `old_stacking` (`src/osu/mod.rs` lines 411-437), the legacy stack
resolver. -/
def old_stacking (thr : ℝ) (a : Array OsuObject) : Array OsuObject :=
  oldStackingLoop thr a.size (List.range a.size) a

/-- Modelled from the spec: `ScalingFactor::stack_offset`
(`src/osu/scaling_factor.rs` is not under `src/`).  Per §4.1 and the glossary,
the stack offset is the stack height times a fixed offset-unit vector; the
unit vector is a parameter here. -/
def stackOffset (unit : Pos) (height : ℝ) : Pos :=
  ⟨height * unit.x, height * unit.y⟩

/-- Source (`calculate_skills`, lines 227-232): applying the stack offset to
every object's position. -/
def applyStackOffset (unit : Pos) (a : Array OsuObject) : Array OsuObject :=
  a.map fun h =>
    { h with pos := ⟨h.pos.x + (stackOffset unit h.stackHeight).x,
                     h.pos.y + (stackOffset unit h.stackHeight).y⟩ }

/-- Real cube root, modelling `f64::cbrt` (odd function, agreeing with
`x ^ (1/3)` on nonnegative arguments). -/
def cbrt (x : ℝ) : ℝ :=
  if x < 0 then -((-x) ^ ((1 : ℝ) / 3)) else x ^ ((1 : ℝ) / 3)

theorem cbrt_of_nonneg {x : ℝ} (h : 0 ≤ x) : cbrt x = x ^ ((1 : ℝ) / 3) := by
  rw [cbrt, if_neg (not_lt.2 h)]

/-- Modelling `f64::exp2`. -/
def exp2 (x : ℝ) : ℝ := (2 : ℝ) ^ x

/-- Source: `calculate_star_rating` (`src/osu/mod.rs` lines 105-132). -/
def calculate_star_rating (aim_rating speed_rating flashlight_rating : ℝ) : ℝ :=
  let base_aim_performance :=
    (5 * max (aim_rating / 0.0675) 1 - 4) * (5 * max (aim_rating / 0.0675) 1 - 4) *
      (5 * max (aim_rating / 0.0675) 1 - 4) / 100000
  let base_speed_performance :=
    (5 * max (speed_rating / 0.0675) 1 - 4) * (5 * max (speed_rating / 0.0675) 1 - 4) *
      (5 * max (speed_rating / 0.0675) 1 - 4) / 100000
  let base_flashlight_performance := flashlight_rating * flashlight_rating * 25
  let base_performance :=
    (base_aim_performance ^ (1.1 : ℝ) + base_speed_performance ^ (1.1 : ℝ) +
        base_flashlight_performance ^ (1.1 : ℝ)) ^ ((1 : ℝ) / 1.1)
  if base_performance > 0.00001 then
    cbrt 1.12 * 0.027 * (cbrt (100000 / exp2 (1 / 1.1) * base_performance) + 4)
  else 0

/-- Spec wording of the star-rating aggregation (§4.4 / claim C1): aim and
speed ratings become `((5 * max (rating / k) 1 - 4) ^ 3) / 100000` with
`k = 0.0675`, flashlight becomes `rating ^ 2 * 25`; the bases are combined by
an `L^1.1` power mean and, when the combined value exceeds the negligibility
cutoff `0.00001`, mapped through `1.12 ^ (1/3) * 0.027 *
((100000 / 2 ^ (1/1.1) * combined) ^ (1/3) + 4)`, and otherwise the star
rating is exactly `0`. -/
def specStarRating (aim_rating speed_rating flashlight_rating : ℝ) : ℝ :=
  let baseAim := (5 * max (aim_rating / 0.0675) 1 - 4) ^ (3 : ℕ) / 100000
  let baseSpeed := (5 * max (speed_rating / 0.0675) 1 - 4) ^ (3 : ℕ) / 100000
  let baseFlashlight := flashlight_rating ^ (2 : ℕ) * 25
  let combined :=
    (baseAim ^ (1.1 : ℝ) + baseSpeed ^ (1.1 : ℝ) + baseFlashlight ^ (1.1 : ℝ)) ^ ((1 : ℝ) / 1.1)
  if combined > 0.00001 then
    1.12 ^ ((1 : ℝ) / 3) * 0.027 *
      ((100000 / (2 : ℝ) ^ ((1 : ℝ) / 1.1) * combined) ^ ((1 : ℝ) / 3) + 4)
  else 0

/-- C1: the star-rating aggregator maps the three skill ratings to the final
star rating exactly by the spec's formula: aim and speed each become
`((5 * max (rating / 0.0675) 1 - 4) ^ 3) / 100000`, flashlight becomes
`rating ^ 2 * 25`, the bases are combined as `(Σ base ^ 1.1) ^ (1 / 1.1)`,
and the result is `1.12 ^ (1/3) * 0.027 * ((100000 / 2 ^ (1/1.1) *
combined) ^ (1/3) + 4)` when the combined value exceeds the `0.00001`
negligibility cutoff and exactly `0` otherwise. -/
theorem star_rating_matches_spec (a s f : ℝ) :
    calculate_star_rating a s f = specStarRating a s f := by
  have hcube : ∀ r : ℝ,
      (5 * max (r / 0.0675) 1 - 4) * (5 * max (r / 0.0675) 1 - 4) *
          (5 * max (r / 0.0675) 1 - 4) / 100000 =
        (5 * max (r / 0.0675) 1 - 4) ^ (3 : ℕ) / 100000 := fun r => by ring
  have hsq : f * f * 25 = f ^ (2 : ℕ) * 25 := by ring
  simp only [calculate_star_rating, specStarRating, exp2, hcube, hsq]
  split_ifs with h
  · rw [cbrt_of_nonneg (by norm_num : (0 : ℝ) ≤ 1.12),
      cbrt_of_nonneg (le_of_lt (mul_pos
        (div_pos (by norm_num) (Real.rpow_pos_of_pos two_pos _))
        (lt_trans (by norm_num : (0 : ℝ) < 0.00001) h)))]
  · rfl

/-- Helper: the exact value of the star rating when all three skill ratings
are `0`: the aim and speed base performances floor at `1 / 100000`, the
combined base performance is `2 ^ (1 / 1.1) / 100000 > 0.00001`, and the
cube-root branch evaluates to `1.12 ^ (1/3) * 0.027 * 5`. -/
theorem star_rating_at_zero_eq :
    calculate_star_rating 0 0 0 = 1.12 ^ ((1 : ℝ) / 3) * 0.027 * 5 := by
  have hbase : (5 * max ((0 : ℝ) / 0.0675) 1 - 4) * (5 * max ((0 : ℝ) / 0.0675) 1 - 4) *
      (5 * max ((0 : ℝ) / 0.0675) 1 - 4) / 100000 = 1 / 100000 := by
    rw [show (0 : ℝ) / 0.0675 = 0 by norm_num, max_eq_right (by norm_num : (0 : ℝ) ≤ 1)]
    norm_num
  have hfl : (0 : ℝ) * 0 * 25 = 0 := by ring
  have hflp : ((0 : ℝ) : ℝ) ^ (1.1 : ℝ) = 0 := Real.zero_rpow (by norm_num)
  have hsum : ((1 : ℝ) / 100000) ^ (1.1 : ℝ) + (1 / 100000 : ℝ) ^ (1.1 : ℝ) + 0 =
      2 * ((1 : ℝ) / 100000) ^ (1.1 : ℝ) := by ring
  have hmul : ((2 : ℝ) * ((1 : ℝ) / 100000) ^ (1.1 : ℝ)) ^ ((1 : ℝ) / 1.1) =
      (2 : ℝ) ^ ((1 : ℝ) / 1.1) * (1 / 100000 : ℝ) := by
    rw [Real.mul_rpow (by norm_num) (Real.rpow_nonneg (by norm_num) _)]
    congr 1
    rw [← Real.rpow_mul (by norm_num : (0 : ℝ) ≤ 1 / 100000),
      show (1.1 : ℝ) * (1 / 1.1) = 1 by norm_num, Real.rpow_one]
  have h21 : (1 : ℝ) < (2 : ℝ) ^ ((1 : ℝ) / 1.1) :=
    (Real.one_lt_rpow_iff_of_pos two_pos).2 (Or.inl ⟨one_lt_two, by norm_num⟩)
  have hE : ((2 : ℝ) ^ ((1 : ℝ) / 1.1)) ≠ 0 := (Real.rpow_pos_of_pos two_pos _).ne'
  simp only [calculate_star_rating, hbase, hfl, hflp, hsum, hmul, exp2]
  rw [if_pos (by nlinarith)]
  rw [show (100000 : ℝ) / (2 : ℝ) ^ ((1 : ℝ) / 1.1) *
      ((2 : ℝ) ^ ((1 : ℝ) / 1.1) * (1 / 100000 : ℝ)) = 1 by field_simp]
  rw [cbrt_of_nonneg (by norm_num : (0 : ℝ) ≤ 1.12),
    cbrt_of_nonneg (by norm_num : (0 : ℝ) ≤ 1), Real.one_rpow]
  ring

/-- C2 counterexample: a chart whose computed skill ratings are all `0` does
NOT get star rating `0` from the aggregator — `calculate_star_rating 0 0 0`
is the (positive) value `1.12 ^ (1/3) * 0.027 * 5 ≈ 0.1404`. -/
theorem star_rating_zero_ratings_ne_zero : calculate_star_rating 0 0 0 ≠ 0 := by
  rw [star_rating_at_zero_eq]
  have h : (0 : ℝ) < 1.12 ^ ((1 : ℝ) / 3) * 0.027 * 5 := by positivity
  exact h.ne'

/-- C2 amended: for a chart whose computed skill ratings are all `0` (aim,
speed and flashlight), the star-rating aggregation yields exactly
`1.12 ^ (1/3) * 0.027 * 5 ≈ 0.1404` (the aim and speed base performances
floor at `1/100000` each, so the combined base performance
`2 ^ (1/1.1) / 100000` exceeds the `0.00001` cutoff), not `0`. -/
theorem star_rating_zero_ratings_value :
    calculate_star_rating 0 0 0 = 1.12 ^ ((1 : ℝ) / 3) * 0.027 * 5 :=
  star_rating_at_zero_eq

/-- Zero spatial coincidences (claim C3): no two distinct objects are within
the `STACK_DISTANCE` coincidence distance of each other, for both the start
positions and the slider end positions the resolvers compare. -/
def NoCoincidence (a : Array OsuObject) : Prop :=
  ∀ i j, i < a.size → j < a.size → i ≠ j →
    ¬(getObj a i).pos.distance (getObj a j).pos < STACK_DISTANCE ∧
    ¬(getObj a i).endPos.distance (getObj a j).pos < STACK_DISTANCE

theorem getObj_lt {a : Array OsuObject} {k : ℕ} (h : k < a.size) : getObj a k = a[k] := by
  unfold getObj Array.getD
  rw [dif_pos h]
  rfl

theorem update_height_zero {o : OsuObject} (h : o.stackHeight = 0) :
    { o with stackHeight := 0 } = o := by
  cases o
  simp_all

theorem setStack_eq_of_zero {a : Array OsuObject} {n : ℕ} (hn : n < a.size)
    (h0 : (getObj a n).stackHeight = 0) : setStack a n 0 = a := by
  unfold setStack
  rw [dif_pos hn]
  refine Array.ext _ _ (Array.size_set a _ _) fun j hj1 hj2 => ?_
  rw [Array.get_set a ⟨n, hn⟩ j (by simpa using hj1)]
  split
  · next heq =>
      subst heq
      rw [getObj_lt hn] at h0
      exact update_height_zero h0
  · rfl

theorem resetStale_fst {es n : ℕ} {a : Array OsuObject} (hn : n < a.size)
    (h0 : (getObj a n).stackHeight = 0) : (resetStale es n a).1 = a := by
  unfold resetStale
  split
  · exact setStack_eq_of_zero hn h0
  · rfl

theorem circleWalk_eq {thr : ℝ} {i : ℕ} {a : Array OsuObject}
    (h0 : ∀ k, k < a.size → (getObj a k).stackHeight = 0) (hnc : NoCoincidence a) :
    ∀ n oi es, oi < a.size → n ≤ oi → (circleWalk thr i n oi es a).1 = a := by
  intro n
  induction n with
  | zero => intro oi es _ _; rfl
  | succ n ih =>
    intro oi es hoi hn
    have hnlt : n < oi := hn
    have hnsz : n < a.size := lt_trans hnlt hoi
    have hreset : (resetStale es n a).1 = a := resetStale_fst hnsz (h0 n hnsz)
    simp only [circleWalk, hreset]
    split_ifs with h1 h2 h3 h4
    · exact ih oi es hoi (le_of_lt hnlt)
    · rfl
    · exact absurd h3.2 ((hnc n oi hnsz hoi (ne_of_lt hnlt)).2)
    · exact absurd h4 ((hnc n oi hnsz hoi (ne_of_lt hnlt)).1)
    · exact ih oi (resetStale es n a).2 hoi (le_of_lt hnlt)

theorem sliderWalk_eq {thr : ℝ} {a : Array OsuObject}
    (hnc : NoCoincidence a) :
    ∀ n oi, oi < a.size → n ≤ oi → sliderWalk thr n oi a = a := by
  intro n
  induction n with
  | zero => intro oi _ _; rfl
  | succ n ih =>
    intro oi hoi hn
    have hnlt : n < oi := hn
    have hnsz : n < a.size := lt_trans hnlt hoi
    simp only [sliderWalk]
    split_ifs with h1 h2 h3
    · exact ih oi hoi (le_of_lt hnlt)
    · rfl
    · exact absurd h3 ((hnc n oi hnsz hoi (ne_of_lt hnlt)).2)
    · exact ih oi hoi (le_of_lt hnlt)

theorem stackingLoop_eq {thr : ℝ} {a : Array OsuObject}
    (h0 : ∀ k, k < a.size → (getObj a k).stackHeight = 0) (hnc : NoCoincidence a) :
    ∀ i es, i < a.size → stackingLoop thr i es a = a := by
  intro i
  induction i with
  | zero => intro es _; rfl
  | succ i ih =>
    intro es hi
    have hi' : i < a.size := Nat.lt_of_succ_lt hi
    simp only [stackingLoop]
    split_ifs with h1 h2 h3
    · exact ih es hi'
    · rw [circleWalk_eq h0 hnc (i + 1) (i + 1) es hi (le_refl _)]
      exact ih _ hi'
    · rw [sliderWalk_eq hnc (i + 1) (i + 1) hi (le_refl _)]
      exact ih es hi'
    · exact ih es hi'

theorem oldStackingInner_eq {thr : ℝ} {a : Array OsuObject} {i : ℕ}
    (hnc : NoCoincidence a) (hi : i < a.size) :
    ∀ js st ss, (∀ j ∈ js, i < j ∧ j < a.size) →
      oldStackingInner i (getObj a i).endPos thr js st ss a = a := by
  intro js
  induction js with
  | nil => intro st ss _; rfl
  | cons j js ih =>
    intro st ss hjs
    obtain ⟨hij, hjsz⟩ := hjs j (List.mem_cons_self j js)
    simp only [oldStackingInner]
    split_ifs with h1 h2 h3
    · rfl
    · exact absurd h2 ((hnc j i hjsz hi (ne_of_gt hij)).1)
    · rw [Pos.distance_comm] at h3
      exact absurd h3 ((hnc i j hi hjsz (ne_of_lt hij)).2)
    · exact ih st ss fun j hj => hjs j (List.mem_cons_of_mem _ hj)

theorem oldStackingLoop_eq {thr : ℝ} {a : Array OsuObject}
    (hnc : NoCoincidence a) :
    ∀ is, (∀ i ∈ is, i < a.size) → oldStackingLoop thr a.size is a = a := by
  intro is
  induction is with
  | nil => intro _; rfl
  | cons i is ih =>
    intro his
    have hi : i < a.size := his i (List.mem_cons_self i is)
    simp only [oldStackingLoop]
    split_ifs with h1
    · exact ih fun j hj => his j (List.mem_cons_of_mem _ hj)
    · rw [oldStackingInner_eq hnc hi _ _ _ ?_]
      · exact ih fun j hj => his j (List.mem_cons_of_mem _ hj)
      · intro j hj
        have := List.mem_range'_1.1 hj
        omega

theorem old_stacking_eq {thr : ℝ} {a : Array OsuObject} (hnc : NoCoincidence a) :
    old_stacking thr a = a := by
  unfold old_stacking
  exact oldStackingLoop_eq hnc _ fun i hi => List.mem_range.1 hi

theorem update_pos_offset_zero {unit : Pos} {o : OsuObject} (h : o.stackHeight = 0) :
    ({ o with pos := ⟨o.pos.x + (stackOffset unit o.stackHeight).x,
        o.pos.y + (stackOffset unit o.stackHeight).y⟩ } : OsuObject) = o := by
  cases o with
  | mk t p et ep k sh =>
    cases p
    simp_all [stackOffset]

theorem applyStackOffset_eq {unit : Pos} {a : Array OsuObject}
    (h0 : ∀ k, k < a.size → (getObj a k).stackHeight = 0) :
    applyStackOffset unit a = a := by
  unfold applyStackOffset
  refine Array.ext _ _ (Array.size_map _ a) fun j hj1 hj2 => ?_
  rw [Array.getElem_map]
  have := h0 j hj2
  rw [getObj_lt hj2] at this
  exact update_pos_offset_zero this

/-- C3: for every chart in which no two objects are within the
`STACK_DISTANCE` coincidence distance of each other, both the modern
(`stacking`) and the legacy (`old_stacking`) stack resolver return the object
sequence unchanged — in particular every object's stack height stays at its
initial `0` — and after the stack-offset application every object's final
position equals its base position. -/
theorem stacking_no_coincidence_id (thr : ℝ) (unit : Pos) (a : Array OsuObject)
    (h0 : ∀ k, k < a.size → (getObj a k).stackHeight = 0)
    (hnc : NoCoincidence a) (hsz : 0 < a.size) :
    stacking thr a = Except.ok a ∧ old_stacking thr a = a ∧
      ∀ k, k < a.size →
        (getObj a k).stackHeight = 0 ∧
        (getObj (applyStackOffset unit a) k).pos = (getObj a k).pos := by
  refine ⟨?_, old_stacking_eq hnc, fun k hk => ⟨h0 k hk, ?_⟩⟩
  · unfold stacking
    rw [if_neg (by omega), stackingLoop_eq h0 hnc (a.size - 1) 0 (by omega)]
  · rw [applyStackOffset_eq h0]

/-- Concrete witness chart for C3: two circles 5 units apart. -/
def cw1 : OsuObject := ⟨0, ⟨0, 0⟩, 0, ⟨0, 0⟩, ObjKind.circle, 0⟩

/-- Second witness object for C3. -/
def cw2 : OsuObject := ⟨7, ⟨5, 0⟩, 7, ⟨5, 0⟩, ObjKind.circle, 0⟩

theorem distance_five_a : Pos.distance ⟨0, 0⟩ ⟨5, 0⟩ = 5 := by
  unfold Pos.distance
  rw [show ((0 : ℝ) - 5) ^ 2 + ((0 : ℝ) - 0) ^ 2 = 5 ^ 2 by norm_num]
  exact Real.sqrt_sq (by norm_num)

theorem distance_five_b : Pos.distance ⟨5, 0⟩ ⟨0, 0⟩ = 5 := by
  rw [Pos.distance_comm]
  exact distance_five_a

/-- Witness for C3 at the two-circle chart `#[cw1, cw2]`. -/
theorem stacking_no_coincidence_id_witness :
    (∀ k, k < (#[cw1, cw2] : Array OsuObject).size →
        (getObj #[cw1, cw2] k).stackHeight = 0) ∧
      NoCoincidence #[cw1, cw2] ∧ 0 < (#[cw1, cw2] : Array OsuObject).size ∧
      (stacking 1000 #[cw1, cw2] = Except.ok #[cw1, cw2] ∧
        old_stacking 1000 #[cw1, cw2] = #[cw1, cw2] ∧
        ∀ k, k < (#[cw1, cw2] : Array OsuObject).size →
          (getObj #[cw1, cw2] k).stackHeight = 0 ∧
          (getObj (applyStackOffset ⟨3, -3⟩ #[cw1, cw2]) k).pos =
            (getObj #[cw1, cw2] k).pos) := by
  have h0 : ∀ k, k < (#[cw1, cw2] : Array OsuObject).size →
      (getObj #[cw1, cw2] k).stackHeight = 0 := by
    intro k hk
    match k with
    | 0 => rfl
    | 1 => rfl
    | k + 2 => exact absurd hk (by simp)
  have hnc : NoCoincidence #[cw1, cw2] := by
    intro i j hi hj hne
    match i, j with
    | 0, 0 => exact absurd rfl hne
    | 1, 1 => exact absurd rfl hne
    | 0, 1 =>
      constructor
      · show ¬Pos.distance ⟨0, 0⟩ ⟨5, 0⟩ < STACK_DISTANCE
        rw [distance_five_a, STACK_DISTANCE]
        norm_num
      · show ¬Pos.distance ⟨0, 0⟩ ⟨5, 0⟩ < STACK_DISTANCE
        rw [distance_five_a, STACK_DISTANCE]
        norm_num
    | 1, 0 =>
      constructor
      · show ¬Pos.distance ⟨5, 0⟩ ⟨0, 0⟩ < STACK_DISTANCE
        rw [distance_five_b, STACK_DISTANCE]
        norm_num
      · show ¬Pos.distance ⟨5, 0⟩ ⟨0, 0⟩ < STACK_DISTANCE
        rw [distance_five_b, STACK_DISTANCE]
        norm_num
    | i + 2, j => exact absurd hi (by simp)
    | i, j + 2 => exact absurd hj (by simp)
  have hsz : 0 < (#[cw1, cw2] : Array OsuObject).size := by simp
  exact ⟨h0, hnc, hsz, stacking_no_coincidence_id 1000 ⟨3, -3⟩ _ h0 hnc hsz⟩

/-- Kind of a raw hit object.  Modelled from the spec (§3/§6): circles,
sliders, spinners, and degenerate/unusable objects (e.g. mania-style hold
notes) for which the Object Builder produces no processed object. -/
inductive RawKind
  | circle
  | slider (endTime : ℝ) (endPos : Pos)
  | spinner (endTime : ℝ)
  | degenerate

/-- A raw timed hit object of the external beatmap collaborator (spec §3). -/
structure RawHitObject where
  time : ℝ
  pos : Pos
  kind : RawKind

/-- The beatmap-shaped input of the pipeline, at the contract of spec §6:
ordered raw hit objects, base difficulty values, stacking leniency, format
version, and the object-type counts read by `calculate_skills`. -/
structure Beatmap where
  hitObjects : List RawHitObject
  ar : ℝ
  od : ℝ
  cs : ℝ
  hp : ℝ
  stackLeniency : ℝ
  version : ℤ
  nCircles : ℕ
  nSliders : ℕ
  nSpinners : ℕ

/-- The modifier capability consumed by the osu difficulty pipeline
(spec §6): boolean queries used by `calculate_skills`. -/
structure OsuMods where
  hr : Bool
  ez : Bool
  rx : Bool
  fl : Bool

/-- The result of `map.attributes().mods(mods)` — the modifier-adjusted
approach rate, overall difficulty, circle size, health drain and clock rate
(computed by crate code that is not under `src/`). -/
structure MapAttributes where
  ar : ℝ
  od : ℝ
  cs : ℝ
  hp : ℝ
  clockRate : ℝ

/-- The difficulty-value outputs of the four skill strain trackers
(`Skills` of the source): aim, aim-without-sliders, and the optional speed
(absent under relax) and flashlight (present only under the flashlight
modifier) trackers. -/
structure SkillValues where
  aimDV : ℝ
  aimNoSlidersDV : ℝ
  speedDV : Option ℝ
  flashlightDV : Option ℝ

/-- Modelled from the spec: the collaborators and repository modules not
under `src/` that `calculate_skills` and `stars` invoke —
`map.attributes().mods(mods)` and `crate::difficulty_range` (crate root), the
`ScalingFactor` stack-offset unit (`scaling_factor.rs`), and the whole strain
machinery (`skill.rs`, `skill_kind.rs`, `difficulty_object.rs`) abstracted as
a function from the processed objects to the four trackers' difficulty
values. -/
structure Env where
  mapAttrs : Beatmap → OsuMods → MapAttributes
  difficultyRange : ℝ → ℝ → ℝ → ℝ → ℝ
  stackOffsetUnit : ℝ → Pos
  skills : List OsuObject → ℝ → Bool → ℝ → Bool → ℝ → SkillValues

/-- Modelled from the spec: the Object Builder (`OsuObject::new`,
`src/osu/osu_object.rs` is not under `src/`): one processed object per
non-degenerate raw object, carrying position, start/end time, end position
and a stack height of `0`; degenerate objects yield `none` and are dropped by
the `filter_map`. -/
def osuObjectNew (h : RawHitObject) : Option OsuObject :=
  match h.kind with
  | RawKind.circle => some ⟨h.time, h.pos, h.time, h.pos, ObjKind.circle, 0⟩
  | RawKind.slider et ep => some ⟨h.time, h.pos, et, ep, ObjKind.slider, 0⟩
  | RawKind.spinner et => some ⟨h.time, h.pos, et, h.pos, ObjKind.spinner, 0⟩
  | RawKind.degenerate => none

/-- Modelled from the spec: the achievable-max-combo bookkeeping of the
Object Builder (`params.max_combo`); per-object combo contributions (slider
tick counts come from the external curve collaborator) are abstracted as one
per processed object. -/
def maxComboModel (objs : List OsuObject) : ℕ := objs.length

/-- Source: the `OsuDifficultyAttributes` record (`src/osu/mod.rs` lines
449-475). -/
structure OsuDifficultyAttributes where
  aim_strain : ℝ
  speed_strain : ℝ
  flashlight_rating : ℝ
  slider_factor : ℝ
  ar : ℝ
  od : ℝ
  hp : ℝ
  n_circles : ℕ
  n_sliders : ℕ
  n_spinners : ℕ
  stars : ℝ
  max_combo : ℕ

/-- The `Default` of `OsuDifficultyAttributes` (all numeric fields zero). -/
def defaultOsuAttributes : OsuDifficultyAttributes :=
  ⟨0, 0, 0, 0, 0, 0, 0, 0, 0, 0, 0, 0⟩

/-- Source: `calculate_skills` (`src/osu/mod.rs` lines 175-298).
`Except.error ()` models a panic: either the `hit_objects.len() - 1`
underflow inside `stacking` on an empty object list, or the two
`hit_objects.next().unwrap()` calls when fewer than two processed objects
survive the usability filter.  `Except.ok none` is the defined degenerate
fallback (`take < 2`). -/
def calculate_skills (env : Env) (map : Beatmap) (mods : OsuMods)
    (passed_objects : Option ℕ) :
    Except Unit (Option (SkillValues × OsuDifficultyAttributes)) :=
  let take := passed_objects.getD map.hitObjects.length
  let ma := env.mapAttrs map mods
  let hit_window := env.difficultyRange ma.od 20 50 80 / ma.clockRate
  let od := (80 - hit_window) / 6
  if take < 2 then Except.ok none
  else
    let raw_ar := if mods.hr then min (map.ar * 1.4) 10
      else if mods.ez then map.ar * 0.5 else map.ar
    let time_preempt := env.difficultyRange raw_ar 450 1200 1800
    let objs := (map.hitObjects.take take).filterMap osuObjectNew
    let stack_threshold := time_preempt * map.stackLeniency
    let stacked := if map.version ≥ 6 then stacking stack_threshold objs.toArray
      else Except.ok (old_stacking stack_threshold objs.toArray)
    match stacked with
    | Except.error _ => Except.error ()
    | Except.ok arr =>
      let arr := applyStackOffset (env.stackOffsetUnit ma.cs) arr
      if 2 ≤ arr.size then
        Except.ok (some
          (env.skills arr.toList hit_window mods.rx ma.cs mods.fl ma.clockRate,
            { defaultOsuAttributes with
                ar := ma.ar, hp := ma.hp, od := od,
                n_circles := map.nCircles, n_sliders := map.nSliders,
                n_spinners := map.nSpinners, max_combo := maxComboModel objs }))
      else Except.error ()

/-- Source: `stars` (`src/osu/mod.rs` lines 35-103). -/
def stars (env : Env) (map : Beatmap) (mods : OsuMods) (passed_objects : Option ℕ) :
    Except Unit OsuDifficultyAttributes :=
  match calculate_skills env map mods passed_objects with
  | Except.error _ => Except.error ()
  | Except.ok none =>
    let ma := env.mapAttrs map mods
    let hit_window := env.difficultyRange ma.od 20 50 80 / ma.clockRate
    let od := (80 - hit_window) / 6
    Except.ok { defaultOsuAttributes with ar := ma.ar, hp := ma.hp, od := od }
  | Except.ok (some (skills, attributes)) =>
    let aim_rating := Real.sqrt skills.aimDV * DIFFICULTY_MULTIPLIER
    let slider_factor := if aim_rating > 0 then
        (Real.sqrt skills.aimNoSlidersDV * DIFFICULTY_MULTIPLIER) / aim_rating
      else 1
    let speed_rating := match skills.speedDV with
      | some v => Real.sqrt v * DIFFICULTY_MULTIPLIER
      | none => 0
    let flashlight_rating := match skills.flashlightDV with
      | some v => Real.sqrt v * DIFFICULTY_MULTIPLIER
      | none => 0
    Except.ok { attributes with
        aim_strain := aim_rating, speed_strain := speed_rating,
        flashlight_rating := flashlight_rating, slider_factor := slider_factor,
        stars := calculate_star_rating aim_rating speed_rating flashlight_rating }

/-- C4 amended: for every input whose take-first-K truncation count (the
requested passed-objects count, defaulting to the chart's object count) is
below 2, `stars` returns — without failing — the attributes record whose
approach-rate, health-drain and overall-difficulty fields are the
modifier-adjusted values and whose every other difficulty/rating field
(stars, aim, speed, flashlight, slider factor, max combo, object counts) is
its zero default.  (When the truncation count is at least 2 but fewer than
two objects survive the per-object usability filter, the pipeline panics
instead; see the counterexample.) -/
theorem stars_degenerate_fallback (env : Env) (map : Beatmap) (mods : OsuMods)
    (passed_objects : Option ℕ)
    (h : passed_objects.getD map.hitObjects.length < 2) :
    stars env map mods passed_objects = Except.ok
      { defaultOsuAttributes with
          ar := (env.mapAttrs map mods).ar,
          hp := (env.mapAttrs map mods).hp,
          od := (80 - env.difficultyRange (env.mapAttrs map mods).od 20 50 80 /
            (env.mapAttrs map mods).clockRate) / 6 } := by
  have hcs : calculate_skills env map mods passed_objects = Except.ok none := by
    simp only [calculate_skills]
    rw [if_pos h]
  unfold stars
  rw [hcs]

/-- C4/C5 concrete input: a chart whose first two objects are unusable
(degenerate), so the truncation keeps 2 objects but the usability filter
leaves none. -/
def degMap : Beatmap :=
  { hitObjects := [⟨0, ⟨0, 0⟩, RawKind.degenerate⟩, ⟨100, ⟨5, 0⟩, RawKind.degenerate⟩],
    ar := 5, od := 5, cs := 4, hp := 5, stackLeniency := 0.7, version := 14,
    nCircles := 0, nSliders := 0, nSpinners := 0 }

/-- A chart with no objects at all (take-count 0). -/
def emptyMap : Beatmap :=
  { hitObjects := [], ar := 5, od := 5, cs := 4, hp := 5, stackLeniency := 0.7,
    version := 14, nCircles := 0, nSliders := 0, nSpinners := 0 }

/-- A concrete environment instance for the witnesses. -/
def envW : Env :=
  { mapAttrs := fun m _ => ⟨m.ar, m.od, m.cs, m.hp, 1⟩,
    difficultyRange := fun v _ _ _ => v,
    stackOffsetUnit := fun _ => ⟨0, 0⟩,
    skills := fun _ _ _ _ _ _ => ⟨0, 0, none, none⟩ }

/-- A concrete no-modifier instance. -/
def modsW : OsuMods := ⟨false, false, false, false⟩

/-- C4 counterexample: on a chart whose two truncated objects are both
unusable — so fewer than two usable objects remain after truncation — `stars`
does not return a fallback attributes record at all: it panics
(`Except.error`), refuting the claim as stated for this input. -/
theorem stars_two_unusable_objects_not_fallback :
    ((degMap.hitObjects.take 2).filterMap osuObjectNew).length < 2 ∧
      stars envW degMap modsW none = Except.error () := by
  constructor
  · decide
  · rfl

/-- Witness for the amended C4 at the empty chart. -/
theorem stars_degenerate_fallback_witness :
    ((none : Option ℕ).getD emptyMap.hitObjects.length < 2) ∧
      stars envW emptyMap modsW none = Except.ok
        { defaultOsuAttributes with
            ar := (envW.mapAttrs emptyMap modsW).ar,
            hp := (envW.mapAttrs emptyMap modsW).hp,
            od := (80 - envW.difficultyRange (envW.mapAttrs emptyMap modsW).od 20 50 80 /
              (envW.mapAttrs emptyMap modsW).clockRate) / 6 } :=
  ⟨by decide, stars_degenerate_fallback envW emptyMap modsW none (by decide)⟩

/-- C5: evaluating the pipeline at the failing input — a beatmap-shaped input
(2 raw objects, both unusable, format version ≥ 6, no truncation request)
passes the `take < 2` guard, the usability filter yields zero processed
objects, and the pipeline panics (the `hit_objects.len() - 1` underflow in
`stacking`, then the `next().unwrap()` calls), for every environment and
modifier set — contradicting the no-panic contract. -/
theorem stars_unusable_filter_panics (env : Env) (mods : OsuMods) :
    stars env degMap mods none = Except.error () := rfl

/-- The `FruitsDifficultyAttributes` record (defined in `src/fruits/mod.rs`,
not under `src/`); its fields are taken from their uses in
`src/fruits/pp.rs`: star rating, approach rate, object counts and max
combo. -/
structure FruitsDifficultyAttributes where
  stars : ℝ
  ar : ℝ
  n_fruits : ℕ
  n_droplets : ℕ
  n_tiny_droplets : ℕ
  max_combo : ℕ

/-- The modifier capability consumed by the fruits performance calculator:
the boolean queries `hd()`, `fl()`, `nf()` used in `src/fruits/pp.rs` (the
bit-flag decoding of the `u32` mods is an external collaborator per §6). -/
structure FruitsMods where
  hd : Bool
  fl : Bool
  nf : Bool

/-- Source: the `FruitsPP` builder state (`src/fruits/pp.rs` lines 35-47). -/
structure FruitsPP where
  map : Beatmap
  attributes : Option FruitsDifficultyAttributes
  mods : FruitsMods
  combo : Option ℕ
  n_fruits : Option ℕ
  n_droplets : Option ℕ
  n_tiny_droplets : Option ℕ
  n_tiny_droplet_misses : Option ℕ
  n_misses : ℕ
  passed_objects : Option ℕ

/-- Source: the `FruitsPPInner` record (`src/fruits/pp.rs` lines 267-276). -/
structure FruitsPPInner where
  attributes : FruitsDifficultyAttributes
  mods : FruitsMods
  combo : Option ℕ
  n_fruits : ℕ
  n_droplets : ℕ
  n_tiny_droplets : ℕ
  n_tiny_droplet_misses : ℕ
  n_misses : ℕ

/-- Source: the `FruitsPerformanceAttributes` record (fields per their uses
in `src/fruits/pp.rs` lines 341-344). -/
structure FruitsPerformanceAttributes where
  attributes : FruitsDifficultyAttributes
  pp : ℝ

/-- Rust `Option::filter` for natural numbers. -/
def optFilter (p : ℕ → Bool) : Option ℕ → Option ℕ
  | some x => if p x then some x else none
  | none => none

/-- Rust `Option::and`. -/
def optAnd : Option ℕ → Option ℕ → Option ℕ
  | some _, b => b
  | none, _ => none

/-- Source: `FruitsPP::assert_hitresults` (`src/fruits/pp.rs` lines
186-254); `usize::saturating_sub` is `ℕ` truncated subtraction. -/
def FruitsPP.assert_hitresults (s : FruitsPP)
    (attributes : FruitsDifficultyAttributes) : FruitsPPInner :=
  let correct_combo_hits := optFilter (fun h => h == attributes.max_combo)
    (s.n_fruits.bind fun f => s.n_droplets.map fun d => f + d + s.n_misses)
  let correct_fruits := optFilter
    (fun f => attributes.n_fruits - s.n_misses ≤ f) s.n_fruits
  let correct_droplets := optFilter
    (fun d => attributes.n_droplets - s.n_misses ≤ d) s.n_droplets
  let correct_tinies := optFilter (fun h => h == attributes.n_tiny_droplets)
    (s.n_tiny_droplets.bind fun t => s.n_tiny_droplet_misses.map fun m => t + m)
  if (optAnd (optAnd (optAnd correct_combo_hits correct_fruits) correct_droplets)
      correct_tinies).isNone then
    let n_fruits := s.n_fruits.getD 0
    let n_droplets := s.n_droplets.getD 0
    let n_tiny_droplets := s.n_tiny_droplets.getD 0
    let n_tiny_droplet_misses := s.n_tiny_droplet_misses.getD 0
    let missing := attributes.max_combo - n_fruits - n_droplets - s.n_misses
    let missing_fruits := missing - (attributes.n_droplets - n_droplets)
    { attributes := attributes, mods := s.mods, combo := s.combo,
      n_fruits := n_fruits + missing_fruits,
      n_droplets := n_droplets + (missing - missing_fruits),
      n_tiny_droplets := n_tiny_droplets +
        (attributes.n_tiny_droplets - n_tiny_droplets - n_tiny_droplet_misses),
      n_tiny_droplet_misses := n_tiny_droplet_misses,
      n_misses := s.n_misses }
  else
    { attributes := attributes, mods := s.mods, combo := s.combo,
      n_fruits := s.n_fruits.getD 0,
      n_droplets := s.n_droplets.getD 0,
      n_tiny_droplets := s.n_tiny_droplets.getD 0,
      n_tiny_droplet_misses := s.n_tiny_droplet_misses.getD 0,
      n_misses := s.n_misses }

/-- Source: `FruitsPPInner::combo_hits` (`src/fruits/pp.rs` lines 347-350). -/
def FruitsPPInner.combo_hits (s : FruitsPPInner) : ℕ :=
  s.n_fruits + s.n_droplets + s.n_misses

/-- Source: `FruitsPPInner::successful_hits` (`src/fruits/pp.rs` lines
352-355). -/
def FruitsPPInner.successful_hits (s : FruitsPPInner) : ℕ :=
  s.n_fruits + s.n_droplets + s.n_tiny_droplets

/-- Source: `FruitsPPInner::total_hits` (`src/fruits/pp.rs` lines 357-360). -/
def FruitsPPInner.total_hits (s : FruitsPPInner) : ℕ :=
  s.successful_hits + s.n_tiny_droplet_misses + s.n_misses

/-- Source: `FruitsPPInner::acc` (`src/fruits/pp.rs` lines 362-373). -/
def FruitsPPInner.acc (s : FruitsPPInner) : ℝ :=
  if s.total_hits = 0 then 1
  else min (max ((s.successful_hits : ℝ) / (s.total_hits : ℝ)) 0) 1

/-- Source (`FruitsPPInner::calculate`, lines 302-307): the factor that the
combo-scaling step multiplies onto pp — `(combo / max_combo) ^ 0.8` capped at
`1.0` when an achieved combo is supplied and the chart's max combo is
positive, and `1` (the step is skipped) otherwise. -/
def comboScalingFactor (combo : Option ℕ) (max_combo : ℕ) : ℝ :=
  match combo with
  | some c => if 0 < max_combo then
      min (((c : ℝ) / (max_combo : ℝ)) ^ (0.8 : ℝ)) 1 else 1
  | none => 1

/-- Source: `FruitsPPInner::calculate` (`src/fruits/pp.rs` lines 279-345);
`f64::log10` is `Real.logb 10`, the `(combo_hits > 2500) as u8 as f64` cast
is an indicator. -/
def FruitsPPInner.calculate (s : FruitsPPInner) : FruitsPerformanceAttributes :=
  let attributes := s.attributes
  let stars := attributes.stars
  let pp0 := (5 * max (stars / 0.0049) 1 - 4) ^ (2 : ℕ) / 100000
  let combo_hits := if s.combo_hits = 0 then attributes.max_combo else s.combo_hits
  let len_bonus := 0.95 + 0.3 * min ((combo_hits : ℝ) / 2500) 1 +
    (if 2500 < combo_hits then (1 : ℝ) else 0) *
      Real.logb 10 ((combo_hits : ℝ) / 2500) * 0.475
  let pp1 := pp0 * len_bonus
  let pp2 := pp1 * (0.97 : ℝ) ^ s.n_misses
  let pp3 := pp2 * comboScalingFactor s.combo attributes.max_combo
  let ar := attributes.ar
  let ar_factor := 1 + (if 9 < ar then
      0.1 * (ar - 9) + (if 10 < ar then (1 : ℝ) else 0) * 0.1 * (ar - 10)
    else if ar < 8 then 0.025 * (8 - ar) else 0)
  let pp4 := pp3 * ar_factor
  let pp5 := if s.mods.hd then
      (if ar ≤ 10 then pp4 * (1.05 + 0.075 * (10 - ar))
       else pp4 * (1.01 + 0.04 * (11 - min ar 11)))
    else pp4
  let pp6 := if s.mods.fl then pp5 * (1.35 * len_bonus) else pp5
  let pp7 := pp6 * s.acc ^ (5.5 : ℝ)
  let pp8 := if s.mods.nf then pp7 * 0.9 else pp7
  ⟨s.attributes, pp8⟩

/-- Source: `FruitsPP::accuracy` (`src/fruits/pp.rs` lines 149-184), the
judgement-count reconstruction from a target accuracy.  The function takes
the ensured difficulty attributes explicitly (when `self.attributes` is
`None` the source first computes them through the fruits difficulty pipeline,
which is not under `src/`).  `f64::round` rounds half away from zero, which
agrees with `round` on the nonnegative arguments arising here; the `as usize`
cast of the rounded value saturates at zero, which is `Int.toNat`. -/
def FruitsPP.accuracySet (s : FruitsPP) (attributes : FruitsDifficultyAttributes)
    (acc0 : ℝ) : FruitsPP :=
  let n_droplets := s.n_droplets.getD (attributes.n_droplets - s.n_misses)
  let n_fruits := s.n_fruits.getD
    (attributes.max_combo - s.n_misses - n_droplets)
  let max_tiny_droplets := attributes.n_tiny_droplets
  let acc := acc0 / 100
  let n_tiny_droplets := s.n_tiny_droplets.getD
    ((round (acc * ((attributes.max_combo + max_tiny_droplets : ℕ) : ℝ))).toNat -
      n_fruits - n_droplets)
  let n_tiny_droplet_misses := max_tiny_droplets - n_tiny_droplets
  { s with
      attributes := some attributes,
      n_fruits := some n_fruits, n_droplets := some n_droplets,
      n_tiny_droplets := some n_tiny_droplets,
      n_tiny_droplet_misses := some n_tiny_droplet_misses }

/-- The crate-level `DifficultyAttributes` enum (defined in the crate root,
not under `src/`); modelled with the two game-mode variants whose payload
types occur in `src/` — the fruits variant and a non-fruits (osu) variant. -/
inductive DifficultyAttributes
  | Fruits (attributes : FruitsDifficultyAttributes)
  | Osu (attributes : OsuDifficultyAttributes)

/-- Source: the `FruitsAttributeProvider` impl for `DifficultyAttributes`
(`src/fruits/pp.rs` lines 396-406): only the fruits variant provides
attributes. -/
def DifficultyAttributes.fruitsAttributes :
    DifficultyAttributes → Option FruitsDifficultyAttributes
  | DifficultyAttributes.Fruits attributes => some attributes
  | _ => none

/-- Source: `FruitsPP::attributes` (`src/fruits/pp.rs` lines 71-78): the
setter body after the generic provider has produced its optional attributes —
`if let Some(attributes) = ... { self.attributes.replace(attributes) }`. -/
def FruitsPP.attributesSet (s : FruitsPP)
    (provided : Option FruitsDifficultyAttributes) : FruitsPP :=
  match provided with
  | some attributes => { s with attributes := some attributes }
  | none => s

/-- Source: `FruitsPP::calculate` (`src/fruits/pp.rs` lines 256-264);
`stars_fn` stands for the fruits difficulty pipeline `stars` (defined in
`src/fruits/mod.rs`, not under `src/`) invoked when no attributes were
supplied. -/
def FruitsPP.calculate
    (stars_fn : Beatmap → FruitsMods → Option ℕ → FruitsDifficultyAttributes)
    (s : FruitsPP) : FruitsPerformanceAttributes :=
  let attributes := s.attributes.getD (stars_fn s.map s.mods s.passed_objects)
  (s.assert_hitresults attributes).calculate

/-- C6 counterexample input: supplied counts claiming 2 fruits against a
chart with max combo 1 (oversupplied counts, so the consistency checks
fail). -/
def c6state : FruitsPP :=
  { map := emptyMap, attributes := none, mods := ⟨false, false, false⟩,
    combo := none, n_fruits := some 2, n_droplets := some 0,
    n_tiny_droplets := none, n_tiny_droplet_misses := none, n_misses := 0,
    passed_objects := none }

/-- C6 counterexample attributes: a chart with max combo 1. -/
def c6attr : FruitsDifficultyAttributes := ⟨0, 0, 1, 0, 0, 1⟩

/-- C6 counterexample: after the reconstruction-and-correction step the
full-hit + partial-hit + miss counts do NOT sum to the chart's max combo when
the user oversupplies counts — with 2 fruits supplied against max combo 1 the
saturating correction leaves the sum at 2 ≠ 1. -/
theorem assert_hitresults_overcount_counterexample :
    ¬((c6state.assert_hitresults c6attr).n_tiny_droplets +
        (c6state.assert_hitresults c6attr).n_tiny_droplet_misses =
          c6attr.n_tiny_droplets ∧
      (c6state.assert_hitresults c6attr).n_fruits +
          (c6state.assert_hitresults c6attr).n_droplets +
          (c6state.assert_hitresults c6attr).n_misses = c6attr.max_combo) := by
  decide

theorem optAnd_ne_none {a b : Option ℕ} (h : ¬optAnd a b = none) :
    ¬a = none ∧ ¬b = none := by
  cases a <;> cases b <;> simp_all [optAnd]

theorem optFilter_beq_ne_none {m : ℕ} {o : Option ℕ}
    (h : ¬optFilter (fun x => x == m) o = none) : o = some m := by
  cases o with
  | none => exact absurd rfl h
  | some x =>
    simp only [optFilter] at h
    split_ifs at h with hx
    · exact congrArg some (by simpa using hx)
    · exact absurd rfl h

theorem bind_map_add_eq_some {o1 o2 : Option ℕ} {mm v : ℕ}
    (h : (o1.bind fun f => o2.map fun d => f + d + mm) = some v) :
    ∃ f d, o1 = some f ∧ o2 = some d ∧ f + d + mm = v := by
  cases o1 with
  | none => simp at h
  | some f =>
    cases o2 with
    | none => simp at h
    | some d => exact ⟨f, d, rfl, rfl, by simpa using h⟩

theorem bind_map_add2_eq_some {o1 o2 : Option ℕ} {v : ℕ}
    (h : (o1.bind fun t => o2.map fun m => t + m) = some v) :
    ∃ t m, o1 = some t ∧ o2 = some m ∧ t + m = v := by
  cases o1 with
  | none => simp at h
  | some t =>
    cases o2 with
    | none => simp at h
    | some m => exact ⟨t, m, rfl, rfl, by simpa using h⟩

/-- C6 amended: for every attribute record and every (possibly partial) set
of user-supplied judgement counts whose supplied values do not exceed the
chart totals (full + partial + miss counts at most the max combo, minor-hit +
minor-miss counts at most the minor-object total), after
`assert_hitresults` the minor-hit count plus the minor-miss count equals
exactly the chart's minor-object total, and the full-hit count plus
partial-hit count plus miss count equals exactly the chart's max combo. -/
theorem assert_hitresults_count_conservation (s : FruitsPP)
    (attributes : FruitsDifficultyAttributes)
    (h1 : s.n_fruits.getD 0 + s.n_droplets.getD 0 + s.n_misses ≤ attributes.max_combo)
    (h2 : s.n_tiny_droplets.getD 0 + s.n_tiny_droplet_misses.getD 0 ≤
      attributes.n_tiny_droplets) :
    (s.assert_hitresults attributes).n_tiny_droplets +
        (s.assert_hitresults attributes).n_tiny_droplet_misses =
          attributes.n_tiny_droplets ∧
      (s.assert_hitresults attributes).n_fruits +
          (s.assert_hitresults attributes).n_droplets +
          (s.assert_hitresults attributes).n_misses = attributes.max_combo := by
  simp only [FruitsPP.assert_hitresults]
  split_ifs with hcond
  · constructor <;> · dsimp only; omega
  · have hc0 : ¬optAnd (optAnd (optAnd
        (optFilter (fun h => h == attributes.max_combo)
          (s.n_fruits.bind fun f => s.n_droplets.map fun d => f + d + s.n_misses))
        (optFilter (fun f => decide (attributes.n_fruits - s.n_misses ≤ f)) s.n_fruits))
        (optFilter (fun d => decide (attributes.n_droplets - s.n_misses ≤ d)) s.n_droplets))
        (optFilter (fun h => h == attributes.n_tiny_droplets)
          (s.n_tiny_droplets.bind fun t => s.n_tiny_droplet_misses.map fun m => t + m)) =
          none := fun he => hcond (by rw [he]; rfl)
    obtain ⟨hc1, htiny⟩ := optAnd_ne_none hc0
    obtain ⟨hc2, _⟩ := optAnd_ne_none hc1
    obtain ⟨hcombo, _⟩ := optAnd_ne_none hc2
    obtain ⟨f, d, hf, hd2, hfd⟩ := bind_map_add_eq_some (optFilter_beq_ne_none hcombo)
    obtain ⟨t, tm, ht, htm, htt⟩ := bind_map_add2_eq_some (optFilter_beq_ne_none htiny)
    dsimp only
    rw [hf, hd2, ht, htm]
    simp only [Option.getD_some]
    omega

/-- C6 witness state: no counts supplied at all. -/
def c6wstate : FruitsPP :=
  { map := emptyMap, attributes := none, mods := ⟨false, false, false⟩,
    combo := none, n_fruits := none, n_droplets := none,
    n_tiny_droplets := none, n_tiny_droplet_misses := none, n_misses := 0,
    passed_objects := none }

/-- C6 witness attributes. -/
def c6wattr : FruitsDifficultyAttributes := ⟨0, 0, 1, 1, 3, 2⟩

/-- Witness for the amended C6. -/
theorem assert_hitresults_count_conservation_witness :
    (c6wstate.n_fruits.getD 0 + c6wstate.n_droplets.getD 0 + c6wstate.n_misses ≤
        c6wattr.max_combo) ∧
      (c6wstate.n_tiny_droplets.getD 0 + c6wstate.n_tiny_droplet_misses.getD 0 ≤
        c6wattr.n_tiny_droplets) ∧
      ((c6wstate.assert_hitresults c6wattr).n_tiny_droplets +
          (c6wstate.assert_hitresults c6wattr).n_tiny_droplet_misses =
            c6wattr.n_tiny_droplets ∧
        (c6wstate.assert_hitresults c6wattr).n_fruits +
            (c6wstate.assert_hitresults c6wattr).n_droplets +
            (c6wstate.assert_hitresults c6wattr).n_misses = c6wattr.max_combo) :=
  ⟨by decide, by decide,
    assert_hitresults_count_conservation c6wstate c6wattr (by decide) (by decide)⟩

/-- C7 fresh builder state: no judgement counts supplied, zero misses. -/
def c7state : FruitsPP :=
  { map := emptyMap, attributes := none, mods := ⟨false, false, false⟩,
    combo := none, n_fruits := none, n_droplets := none,
    n_tiny_droplets := none, n_tiny_droplet_misses := none, n_misses := 0,
    passed_objects := none }

/-- C7 counterexample attributes: a one-fruit chart. -/
def c7attr : FruitsDifficultyAttributes := ⟨0, 0, 1, 0, 0, 1⟩

/-- C7 counterexample: at target accuracy `0` on a one-fruit chart with zero
misses, the reconstruction assigns the single fruit as hit, and the
recomputed accuracy is `100` — off by 100 percentage points, not within
1.0. -/
theorem accuracy_roundtrip_counterexample :
    1 < |100 * (FruitsPPInner.acc
        ⟨c7attr, c7state.mods, c7state.combo,
          ((c7state.accuracySet c7attr 0).n_fruits).getD 0,
          ((c7state.accuracySet c7attr 0).n_droplets).getD 0,
          ((c7state.accuracySet c7attr 0).n_tiny_droplets).getD 0,
          ((c7state.accuracySet c7attr 0).n_tiny_droplet_misses).getD 0,
          c7state.n_misses⟩) - 0| := by
  norm_num [FruitsPP.accuracySet, FruitsPPInner.acc, FruitsPPInner.total_hits,
    FruitsPPInner.successful_hits, c7state, c7attr]

/-- C7 amended: for every attributes record with consistent droplet count
(`n_droplets ≤ max_combo`) and at least 50 combo-plus-minor objects, every
target accuracy `a` between the reconstruction floor
`100 * max_combo / (max_combo + n_tiny_droplets)` and `100`, and zero misses,
reconstructing the judgement counts from `a` via the accuracy setter and
recomputing accuracy from the reconstructed counts yields a value within 1.0
percentage point of `a`. -/
theorem accuracy_roundtrip_bound (attributes : FruitsDifficultyAttributes)
    (s : FruitsPP) (a : ℝ)
    (hD : attributes.n_droplets ≤ attributes.max_combo)
    (hN : 50 ≤ attributes.max_combo + attributes.n_tiny_droplets)
    (hf : s.n_fruits = none) (hd : s.n_droplets = none)
    (ht : s.n_tiny_droplets = none) (htm : s.n_tiny_droplet_misses = none)
    (hm : s.n_misses = 0)
    (ha1 : 100 * (attributes.max_combo : ℝ) /
        ((attributes.max_combo : ℝ) + (attributes.n_tiny_droplets : ℝ)) ≤ a)
    (ha2 : a ≤ 100) :
    |100 * (FruitsPPInner.acc
        ⟨attributes, s.mods, s.combo,
          ((s.accuracySet attributes a).n_fruits).getD 0,
          ((s.accuracySet attributes a).n_droplets).getD 0,
          ((s.accuracySet attributes a).n_tiny_droplets).getD 0,
          ((s.accuracySet attributes a).n_tiny_droplet_misses).getD 0,
          s.n_misses⟩) - a| ≤ 1 := by
  set M := attributes.max_combo with hM
  set D := attributes.n_droplets with hDdef
  set T := attributes.n_tiny_droplets with hT
  set x : ℝ := a / 100 * ((M : ℝ) + (T : ℝ)) with hx
  set r : ℕ := (round x).toNat with hrdef
  have hd' : ((s.accuracySet attributes a).n_droplets).getD 0 = D := by
    simp [FruitsPP.accuracySet, hd, hm]
  have hf' : ((s.accuracySet attributes a).n_fruits).getD 0 = M - D := by
    simp [FruitsPP.accuracySet, hf, hd, hm]
  have ht' : ((s.accuracySet attributes a).n_tiny_droplets).getD 0 =
      r - (M - D) - D := by
    simp [FruitsPP.accuracySet, hf, hd, ht, hm, hx, hrdef]
  have htm' : ((s.accuracySet attributes a).n_tiny_droplet_misses).getD 0 =
      T - (r - (M - D) - D) := by
    simp [FruitsPP.accuracySet, hf, hd, ht, htm, hm, hx, hrdef]
  have hNr : (50 : ℝ) ≤ (M : ℝ) + (T : ℝ) := by exact_mod_cast hN
  have hNpos : (0 : ℝ) < (M : ℝ) + (T : ℝ) := by linarith
  have hxM : (M : ℝ) ≤ x := by
    have h100 := (div_le_iff₀ hNpos).1 ha1
    rw [hx]
    nlinarith
  have hxN : x ≤ (M : ℝ) + (T : ℝ) := by
    rw [hx]
    nlinarith
  have hround_mono : ∀ u v : ℝ, u ≤ v → round u ≤ round v := fun u v h => by
    rw [round_eq, round_eq]
    exact Int.floor_mono (by linarith)
  have hrlo : (M : ℤ) ≤ round x := by
    have h := hround_mono ((M : ℕ) : ℝ) x hxM
    rwa [round_natCast] at h
  have hrhi : round x ≤ (M : ℤ) + (T : ℤ) := by
    have h := hround_mono x ((M : ℝ) + (T : ℝ)) hxN
    rw [show (M : ℝ) + (T : ℝ) = ((M + T : ℕ) : ℝ) by push_cast; ring,
      round_natCast] at h
    exact_mod_cast h
  have hrM : M ≤ r := by omega
  have hrN : r ≤ M + T := by omega
  have h0 : (0 : ℤ) ≤ round x := le_trans (by positivity) hrlo
  have hrcast : ((r : ℕ) : ℝ) = ((round x : ℤ) : ℝ) := by
    rw [hrdef]
    exact_mod_cast Int.toNat_of_nonneg h0
  rw [hf', hd', ht', htm', hm]
  have hsucc : M - D + D + (r - (M - D) - D) = r := by omega
  have htot : M - D + D + (r - (M - D) - D) + (T - (r - (M - D) - D)) + 0 = M + T := by
    omega
  simp only [FruitsPPInner.acc, FruitsPPInner.total_hits, FruitsPPInner.successful_hits]
  rw [hsucc, show r + (T - (r - (M - D) - D)) + 0 = M + T from by omega,
    if_neg (by omega)]
  have hcastN : ((M + T : ℕ) : ℝ) = (M : ℝ) + (T : ℝ) := by push_cast; ring
  rw [hcastN]
  have hrle : (r : ℝ) ≤ (M : ℝ) + (T : ℝ) := by exact_mod_cast hrN
  rw [max_eq_left (by positivity), min_eq_left ((div_le_one hNpos).2 hrle)]
  have heq : 100 * ((r : ℝ) / ((M : ℝ) + (T : ℝ))) - a =
      100 / ((M : ℝ) + (T : ℝ)) * ((r : ℝ) - x) := by
    rw [hx]
    field_simp
    ring
  rw [heq, abs_mul, abs_of_pos (by positivity : (0 : ℝ) < 100 / ((M : ℝ) + (T : ℝ)))]
  have habs2 : |(r : ℝ) - x| ≤ 1 / 2 := by
    rw [hrcast, abs_sub_comm]
    exact abs_sub_round x
  have hstep : 100 / ((M : ℝ) + (T : ℝ)) * |(r : ℝ) - x| ≤
      100 / ((M : ℝ) + (T : ℝ)) * (1 / 2) :=
    mul_le_mul_of_nonneg_left habs2 (by positivity)
  have hfin : 100 / ((M : ℝ) + (T : ℝ)) * (1 / 2) = 50 / ((M : ℝ) + (T : ℝ)) := by
    ring
  calc 100 / ((M : ℝ) + (T : ℝ)) * |(r : ℝ) - x| ≤
      100 / ((M : ℝ) + (T : ℝ)) * (1 / 2) := hstep
    _ = 50 / ((M : ℝ) + (T : ℝ)) := hfin
    _ ≤ 1 := (div_le_one hNpos).2 hNr

/-- C7 witness attributes: a 50-fruit chart. -/
def c7wattr : FruitsDifficultyAttributes := ⟨0, 0, 50, 0, 0, 50⟩

/-- Witness for the amended C7 at target accuracy 100 on the 50-fruit
chart. -/
theorem accuracy_roundtrip_bound_witness :
    (c7wattr.n_droplets ≤ c7wattr.max_combo) ∧
      (50 ≤ c7wattr.max_combo + c7wattr.n_tiny_droplets) ∧
      (100 * (c7wattr.max_combo : ℝ) /
          ((c7wattr.max_combo : ℝ) + (c7wattr.n_tiny_droplets : ℝ)) ≤ 100) ∧
      ((100 : ℝ) ≤ 100) ∧
      |100 * (FruitsPPInner.acc
          ⟨c7wattr, c7state.mods, c7state.combo,
            ((c7state.accuracySet c7wattr 100).n_fruits).getD 0,
            ((c7state.accuracySet c7wattr 100).n_droplets).getD 0,
            ((c7state.accuracySet c7wattr 100).n_tiny_droplets).getD 0,
            ((c7state.accuracySet c7wattr 100).n_tiny_droplet_misses).getD 0,
            c7state.n_misses⟩) - 100| ≤ 1 :=
  ⟨by decide, by decide, by norm_num [c7wattr], le_refl _,
    accuracy_roundtrip_bound c7wattr c7state 100 (by decide) (by decide) rfl rfl rfl
      rfl rfl (by norm_num [c7wattr]) (by norm_num)⟩

/-- C8: the combo-scaling factor applied to pp is always at most `1`; it
equals `1` whenever the achieved combo is at least the chart's max combo; the
scaling step is skipped (factor `1`) when the chart's max combo is `0`; and
when applied it is `(combo / max_combo) ^ 0.8` capped at `1`. -/
theorem combo_scaling_factor_spec (c max_combo : ℕ) (o : Option ℕ) :
    comboScalingFactor (some c) max_combo ≤ 1 ∧
      (max_combo ≤ c → comboScalingFactor (some c) max_combo = 1) ∧
      comboScalingFactor o 0 = 1 ∧
      (0 < max_combo → comboScalingFactor (some c) max_combo =
        min (((c : ℝ) / (max_combo : ℝ)) ^ (0.8 : ℝ)) 1) := by
  refine ⟨?_, ?_, ?_, ?_⟩
  · unfold comboScalingFactor
    split_ifs
    · exact min_le_right _ _
    · exact le_refl 1
  · intro hc
    unfold comboScalingFactor
    split_ifs with h
    · have h1 : (1 : ℝ) ≤ (c : ℝ) / (max_combo : ℝ) :=
        (one_le_div (by exact_mod_cast h)).2 (by exact_mod_cast hc)
      exact min_eq_right (Real.one_le_rpow h1 (by norm_num))
    · rfl
  · cases o with
    | none => rfl
    | some c2 =>
      unfold comboScalingFactor
      dsimp only
      rw [if_neg (lt_irrefl 0)]
  · intro h
    unfold comboScalingFactor
    dsimp only
    rw [if_pos h]

/-- Witness for C8 at combo 3 against max combo 2 (and max combo 0). -/
theorem combo_scaling_factor_spec_witness :
    comboScalingFactor (some 3) 2 ≤ 1 ∧ comboScalingFactor (some 3) 2 = 1 ∧
      comboScalingFactor (some 3) 0 = 1 ∧
      comboScalingFactor (some 3) 2 = min ((((3 : ℕ) : ℝ) / ((2 : ℕ) : ℝ)) ^ (0.8 : ℝ)) 1 :=
  ⟨(combo_scaling_factor_spec 3 2 (some 3)).1,
    (combo_scaling_factor_spec 3 2 (some 3)).2.1 (by norm_num),
    (combo_scaling_factor_spec 3 2 (some 3)).2.2.1,
    (combo_scaling_factor_spec 3 2 (some 3)).2.2.2 (by norm_num)⟩

/-- C9: the accuracy used by the performance calculator equals the number of
successful hits divided by the total judged count clamped to `[0, 1]`, and
equals exactly `1` when the total judged count is zero. -/
theorem acc_clamped_spec (s : FruitsPPInner) :
    (s.total_hits = 0 → s.acc = 1) ∧
      (s.total_hits ≠ 0 →
        s.acc = min (max ((s.successful_hits : ℝ) / (s.total_hits : ℝ)) 0) 1) := by
  constructor
  · intro h
    unfold FruitsPPInner.acc
    rw [if_pos h]
  · intro h
    unfold FruitsPPInner.acc
    rw [if_neg h]

/-- C9 witness inner state with no judged objects. -/
def c9inner : FruitsPPInner := ⟨⟨0, 0, 0, 0, 0, 0⟩, ⟨false, false, false⟩, none, 0, 0, 0, 0, 0⟩

/-- C9 witness inner state with one judged object. -/
def c9innerOne : FruitsPPInner := ⟨⟨0, 0, 0, 0, 0, 0⟩, ⟨false, false, false⟩, none, 1, 0, 0, 0, 0⟩

/-- Witness for C9 at the two concrete inner states. -/
theorem acc_clamped_spec_witness :
    (c9inner.total_hits = 0 ∧ c9inner.acc = 1) ∧
      (c9innerOne.total_hits ≠ 0 ∧ c9innerOne.acc =
        min (max ((c9innerOne.successful_hits : ℝ) / (c9innerOne.total_hits : ℝ)) 0) 1) :=
  ⟨⟨rfl, (acc_clamped_spec c9inner).1 rfl⟩,
    ⟨by decide, (acc_clamped_spec c9innerOne).2 (by decide)⟩⟩

/-- C10: supplying previously computed attributes of the wrong game-mode
variant to the attributes setter is silently ignored (the builder state,
including its unset attributes, is unchanged), so a subsequent `calculate`
recomputes the difficulty attributes from the map through the difficulty
pipeline instead of failing or using the mismatched record. -/
theorem wrong_mode_attributes_ignored
    (stars_fn : Beatmap → FruitsMods → Option ℕ → FruitsDifficultyAttributes)
    (s : FruitsPP) (osu_attributes : OsuDifficultyAttributes) :
    s.attributesSet (DifficultyAttributes.Osu osu_attributes).fruitsAttributes = s ∧
      (s.attributes = none →
        FruitsPP.calculate stars_fn
            (s.attributesSet (DifficultyAttributes.Osu osu_attributes).fruitsAttributes) =
          (s.assert_hitresults (stars_fn s.map s.mods s.passed_objects)).calculate) := by
  constructor
  · rfl
  · intro h
    show FruitsPP.calculate stars_fn s = _
    unfold FruitsPP.calculate
    rw [h]
    rfl

/-- C10 witness state: a fresh builder with unset attributes. -/
def c10state : FruitsPP :=
  { map := emptyMap, attributes := none, mods := ⟨false, false, false⟩,
    combo := none, n_fruits := none, n_droplets := none,
    n_tiny_droplets := none, n_tiny_droplet_misses := none, n_misses := 0,
    passed_objects := none }

/-- C10 witness difficulty record returned by the pipeline stand-in. -/
def c10attr : FruitsDifficultyAttributes := ⟨0, 0, 0, 0, 0, 0⟩

/-- Witness for C10 at a concrete state and wrong-variant record. -/
theorem wrong_mode_attributes_ignored_witness :
    (c10state.attributesSet
        (DifficultyAttributes.Osu defaultOsuAttributes).fruitsAttributes = c10state) ∧
      c10state.attributes = none ∧
      FruitsPP.calculate (fun _ _ _ => c10attr)
          (c10state.attributesSet
            (DifficultyAttributes.Osu defaultOsuAttributes).fruitsAttributes) =
        (c10state.assert_hitresults c10attr).calculate :=
  ⟨(wrong_mode_attributes_ignored (fun _ _ _ => c10attr) c10state defaultOsuAttributes).1,
    rfl,
    (wrong_mode_attributes_ignored (fun _ _ _ => c10attr) c10state defaultOsuAttributes).2 rfl⟩

end
